import Mathlib

/-!
Verification development for the course-catalog / e-commerce backend.

Shallow embedding of:
* the central catalog aggregator (`Gestion Produits & Front-End.js`):
  registry filtering, fan-out request construction, merge of per-category
  responses, and the `cacheVersion` invalidation write;
* the per-category course service (`part_000`): the five-table join that
  assembles course sheets, with stable ordering of modules and chapters;
* the learning service (`Gestion Cours.js`): purchased-course listing;
* the accounts service (`part_001`): duplicate-email registration check;
* the browser stale-while-revalidate cache (`main.js`).

Conventions of the embedding:
* spreadsheet rows become Lean structures whose fields carry the sheet's
  header names (accented headers are transliterated to ASCII identifiers);
* a whole sheet is an `Option (List row)`: `none` models a missing sheet;
* the network is passed in explicitly, as a value or a function from the
  request's target to the parsed response;
* JavaScript's stable `Array.prototype.sort` with a numeric comparator is
  embedded as `List.insertionSort` by the same key: a stable sort by a total
  key order is unique as a function, so any stable sort is a faithful model;
* JavaScript string truthiness on a string-typed value is non-emptiness;
* clock readings (`new Date().getTime()`, `Date.now()`) are explicit `Nat`
  parameters of milliseconds.
-/

namespace JsString

/-- Embedding of JavaScript `String.prototype.toLowerCase` (used on email
addresses): lower-case every character. -/
def toLowerCase (s : String) : String := ⟨s.data.map Char.toLower⟩

/-- Embedding of JavaScript `String.prototype.startsWith`, character-list
based so that it evaluates by `decide`. -/
def jsStartsWith (s pre : String) : Bool := pre.data.isPrefixOf s.data

end JsString

namespace Aggregator

/-- Registry row of the central "Catégories" sheet; the headers (set up by
`setupCentralSheet`) are `IDCategorie, NomCategorie, SheetID, ScriptURL,
ImageURL, Numero`. -/
structure Category where
  IDCategorie : String
  NomCategorie : String
  SheetID : String
  ScriptURL : String
  ImageURL : String
  Numero : String
deriving DecidableEq, Repr

/-- Embedding of the active-row filter of `getPublicCatalog` (line 122):
`c.ScriptURL && !c.ScriptURL.startsWith('REMPLIR_')`. -/
def isActiveRow (c : Category) : Bool :=
  c.ScriptURL != "" && !(JsString.jsStartsWith c.ScriptURL "REMPLIR_")

/-- One outbound request descriptor handed to `UrlFetchApp.fetchAll`
(lines 130-134). -/
structure FetchRequest where
  url : String
  method : String
  muteHttpExceptions : Bool
deriving DecidableEq, Repr

/-- Request list built by `getPublicCatalog`: one request per active registry
row, targeting `<ScriptURL>?action=getProducts`. -/
def catalogRequests (categories : List Category) : List FetchRequest :=
  (categories.filter isActiveRow).map (fun category =>
    { url := category.ScriptURL ++ "?action=getProducts"
      method := "get"
      muteHttpExceptions := true })

/-- Parsed outcome of one category fetch: the HTTP status code together with
the parsed JSON body's `success` flag and `data` payload; `data` is `some`
exactly when `Array.isArray(result.data)` holds. `α` is the item type of a
category's product array (opaque to the aggregator). -/
structure FetchResponse (α : Type) where
  responseCode : Nat
  success : Bool
  data : Option (List α)

/-- Acceptance condition of the merge loop (lines 140-142): HTTP 200, body
`success` flag set, array payload. -/
def fetchOk {α : Type} (r : FetchResponse α) : Bool :=
  r.responseCode == 200 && r.success && r.data.isSome

/-- The `{categories, products}` object returned by `getPublicCatalog`; each
merged product is the upstream item together with the category display name
added by the spread `{...course, Catégorie: categoryName}` (line 145), modeled
as a pair. -/
structure Catalog (α : Type) where
  categories : List Category
  products : List (α × String)
deriving Repr

/-- Merge loop of `getPublicCatalog` (`responses.forEach`, lines 139-149):
walk the active rows in request order; an accepted response contributes its
items tagged with the row's `NomCategorie`, anything else contributes
nothing. `resp` is the network: `UrlFetchApp.fetchAll` keeps responses
aligned with the active rows by index. -/
def collectCourses {α : Type} (resp : Category → FetchResponse α) :
    List Category → List (α × String)
  | [] => []
  | c :: rest =>
      (if fetchOk (resp c) then
        ((resp c).data.getD []).map (fun course => (course, c.NomCategorie))
       else [])
        ++ collectCourses resp rest

/-- Embedding of `getPublicCatalog` (lines 120-153). -/
def getPublicCatalog {α : Type} (categories : List Category)
    (resp : Category → FetchResponse α) : Catalog α :=
  let activeCategories := categories.filter isActiveRow
  if activeCategories.isEmpty then
    { categories := categories, products := [] }
  else
    { categories := categories, products := collectCourses resp activeCategories }

/-- Shape of the `doGet` response for `action=getPublicCatalog`
(lines 82-86). -/
structure PublicCatalogResponse (α : Type) where
  success : Bool
  data : Catalog α
  cacheVersion : Option String

/-- Embedding of the `action=getPublicCatalog` branch of `doGet`
(lines 82-86): always wraps the catalog in `success: true` together with the
stored cache version property (`none` when the property was never set). -/
def doGetPublicCatalog {α : Type} (categories : List Category)
    (resp : Category → FetchResponse α) (storedVersion : Option String) :
    PublicCatalogResponse α :=
  { success := true
    data := getPublicCatalog categories resp
    cacheVersion := storedVersion }

/-- Embedding of the cache-invalidation write shared by the
`action=invalidateCache` branch of `doGet` (lines 67-72) and `onEdit`
(lines 33-44): the stored `cacheVersion` script property is replaced by
`new Date().getTime().toString()`. The clock reading is the `Nat` argument
`now` (milliseconds); the property store is an `Option Nat` (`none` when the
property was never set; the stored string is the decimal image of the
number, so it is modeled by the number itself). Returns the value reported
in the response message together with the new store. -/
def invalidateCache (now : Nat) (_stored : Option Nat) : Nat × Option Nat :=
  let newVersion := now
  (newVersion, some newVersion)

/-- Sample registry row with a configured Backend endpoint. -/
def rowBackend : Category :=
  { IDCategorie := "CAT-001", NomCategorie := "Developpement Backend"
    SheetID := "SHEET-1", ScriptURL := "https://script.example/backend/exec"
    ImageURL := "img1", Numero := "+221771234567" }

/-- Sample registry row with a configured DevOps endpoint. -/
def rowDevOps : Category :=
  { IDCategorie := "CAT-002", NomCategorie := "DevOps et Cloud"
    SheetID := "SHEET-2", ScriptURL := "https://script.example/devops/exec"
    ImageURL := "img2", Numero := "+221771234567" }

/-- Sample registry row still carrying the `REMPLIR_` placeholder. -/
def rowData : Category :=
  { IDCategorie := "CAT-003", NomCategorie := "Data Science"
    SheetID := "REMPLIR_ID_FEUILLE_DATA", ScriptURL := "REMPLIR_URL_SCRIPT_DATA"
    ImageURL := "img3", Numero := "+221771234567" }

/-- Concrete three-row registry for the claims' scenario: two configured
endpoints and one row still carrying the `REMPLIR_` placeholder sentinel. -/
def sampleRegistry : List Category := [rowBackend, rowDevOps, rowData]

/-- Concrete registry mirroring the `setupCentralSheet` example rows
(lines 206-210): every `ScriptURL` still carries the sentinel, so no row is
active. -/
def placeholderRegistry : List Category :=
  [ { IDCategorie := "CAT-001", NomCategorie := "Developpement Backend"
      SheetID := "REMPLIR_ID_FEUILLE_BACKEND", ScriptURL := "REMPLIR_URL_SCRIPT_BACKEND"
      ImageURL := "img", Numero := "+221771234567" }
  , { IDCategorie := "CAT-002", NomCategorie := "DevOps et Cloud"
      SheetID := "REMPLIR_ID_FEUILLE_DEVOPS", ScriptURL := "REMPLIR_URL_SCRIPT_DEVOPS"
      ImageURL := "img", Numero := "+221771234567" }
  , { IDCategorie := "CAT-003", NomCategorie := "Data Science"
      SheetID := "REMPLIR_ID_FEUILLE_DATA", ScriptURL := "REMPLIR_URL_SCRIPT_DATA"
      ImageURL := "img", Numero := "+221771234567" } ]

/-- Concrete network for the sample registry: the first category answers
with two products, every other endpoint fails with a 500. -/
def sampleResp : Category → FetchResponse Nat := fun c =>
  if c.IDCategorie == "CAT-001" then
    { responseCode := 200, success := true, data := some [10, 11] }
  else
    { responseCode := 500, success := false, data := none }

/-- Predicate spelling out the claims' wording for an active registry row:
the endpoint URL is non-empty and does not start with the unconfigured
sentinel `REMPLIR_`. Stated from the specification's words, to be compared
with the source-derived `isActiveRow`. -/
def claimActive (c : Category) : Prop :=
  c.ScriptURL ≠ "" ∧ JsString.jsStartsWith c.ScriptURL "REMPLIR_" = false

instance (c : Category) : Decidable (claimActive c) := by
  unfold claimActive; infer_instance

end Aggregator

namespace CategorySvc

/-- Row of the `Cours_<category>` sheet; headers from `setupCourseSheets`
(part_000 line 272), accents transliterated (`Résumé` → `Resume`,
`Durée_Totale` → `Duree_Totale`, `URL_Vidéo` → `URL_Video`,
`Prérequis` → `Prerequis`). -/
structure CoursRow where
  ID_Cours : String
  Nom_Cours : String
  Resume : String
  Duree_Totale : String
  Niveau : String
  Prix : Int
  URL_Video : String
  Image_Couverture : String
  Freemium_Start : String
  Freemium_End : String
  Objectifs : String
  Prerequis : String
  Avantage_Senior : String
  Public_Cible : String
  Formateur_Nom : String
  Formateur_Titre : String
  Formateur_Bio : String
  Note_Moyenne : String
  Avis : String
deriving DecidableEq, Repr

/-- Row of the `Modules_<category>` sheet (headers at part_000 line 273).
The claim under study restricts attention to numeric `Ordre_Module` values,
so the order column is an `Int`. -/
structure ModuleRow where
  ID_Cours : String
  ID_Module : String
  Nom_Module : String
  Ordre_Module : Int
deriving DecidableEq, Repr

/-- Row of the `Chapitres_<category>` sheet (headers at part_000 line 274;
`Durée` → `Duree`). -/
structure ChapitreRow where
  ID_Module : String
  ID_Chapitre : String
  Nom_Chapitre : String
  Duree : String
  Ressource : String
  Ordre_Chapitre : Int
deriving DecidableEq, Repr

/-- Row of the `Quiz_Chapitres_<category>` sheet (headers at part_000
line 275; `Réponse_i` → `Reponse_i`, `Bonne_Réponse` → `Bonne_Reponse`). -/
structure QuizChapitreRow where
  ID_Chapitre : String
  Question : String
  Reponse_1 : String
  Reponse_2 : String
  Reponse_3 : String
  Reponse_4 : String
  Bonne_Reponse : String
deriving DecidableEq, Repr

/-- Row of the `Quiz_Modules_<category>` sheet (headers at part_000
line 276). -/
structure QuizModuleRow where
  ID_Module : String
  Question : String
  Reponse_1 : String
  Reponse_2 : String
  Reponse_3 : String
  Reponse_4 : String
  Bonne_Reponse : String
deriving DecidableEq, Repr

/-- Embedding of `getModulesByCours` (part_000 lines 168-170):
`allModules.filter(m => m.ID_Cours == idCours)
           .sort((a, b) => a.Ordre_Module - b.Ordre_Module)`.
The JavaScript sort is stable (ES2019) and the comparator is the numeric
key, so it is embedded as the stable `insertionSort` by `Ordre_Module`. -/
def getModulesByCours (idCours : String) (allModules : List ModuleRow) :
    List ModuleRow :=
  (allModules.filter (fun m => m.ID_Cours == idCours)).insertionSort
    (fun a b => a.Ordre_Module ≤ b.Ordre_Module)

/-- Embedding of `getChapitresByModule` (part_000 lines 172-174), same
shape as `getModulesByCours` with the `Ordre_Chapitre` key. -/
def getChapitresByModule (idModule : String) (allChapitres : List ChapitreRow) :
    List ChapitreRow :=
  (allChapitres.filter (fun c => c.ID_Module == idModule)).insertionSort
    (fun a b => a.Ordre_Chapitre ≤ b.Ordre_Chapitre)

/-- Embedding of `getQuizByChapitre` (part_000 lines 176-178). -/
def getQuizByChapitre (idChapitre : String) (allQuiz : List QuizChapitreRow) :
    List QuizChapitreRow :=
  allQuiz.filter (fun q => q.ID_Chapitre == idChapitre)

/-- Embedding of `getQuizByModule` (part_000 lines 180-182). -/
def getQuizByModule (idModule : String) (allQuiz : List QuizModuleRow) :
    List QuizModuleRow :=
  allQuiz.filter (fun q => q.ID_Module == idModule)

/-- The five bulk-loaded tables (`allData` object of `getAllCoursData`,
part_000 lines 106-112). -/
structure AllData where
  cours : List CoursRow
  modules : List ModuleRow
  chapitres : List ChapitreRow
  quizChapitres : List QuizChapitreRow
  quizModules : List QuizModuleRow
deriving DecidableEq, Repr

/-- A chapter after `generateFicheCours` attaches its quizzes
(`chapitre.quiz = getQuizByChapitre(...)`, line 149): the row together with
the added `quiz` array. -/
structure AssembledChapitre where
  chapitre : ChapitreRow
  quiz : List QuizChapitreRow
deriving DecidableEq, Repr

/-- A module after `generateFicheCours` attaches its chapters and module
quizzes (lines 152-153). -/
structure AssembledModule where
  module : ModuleRow
  chapitres : List AssembledChapitre
  quiz : List QuizModuleRow
deriving DecidableEq, Repr

/-- The assembled course sheet (`ficheFinale`, lines 157-160): the base
course row spread together with the nested `modules` array. -/
structure FicheCours where
  cours : CoursRow
  modules : List AssembledModule
deriving DecidableEq, Repr

/-- Embedding of `generateFicheCours` (part_000 lines 129-164): look up the
base course row (`null`, i.e. `none`, when absent), then nest the sorted
modules, each with its sorted chapters, chapter quizzes and module
quizzes. -/
def generateFicheCours (idCours : String) (allData : AllData) :
    Option FicheCours :=
  match allData.cours.find? (fun c => c.ID_Cours == idCours) with
  | none => none
  | some coursBase =>
      let modulesDuCours := getModulesByCours idCours allData.modules
      some
        { cours := coursBase
          modules := modulesDuCours.map (fun m =>
            { module := m
              chapitres := (getChapitresByModule m.ID_Module allData.chapitres).map
                (fun ch =>
                  { chapitre := ch
                    quiz := getQuizByChapitre ch.ID_Chapitre allData.quizChapitres })
              quiz := getQuizByModule m.ID_Module allData.quizModules }) }

/-- Embedding of `sheetToJSON` (part_000 lines 228-241) at the table level:
a sheet is `none` when missing; a missing sheet or one whose data-row list
is empty yields `[]`. -/
def sheetToJSON {ρ : Type} (sheet : Option (List ρ)) : List ρ :=
  sheet.getD []

/-- The five sheets a category service owns, each possibly missing. -/
structure CategorySheets where
  cours : Option (List CoursRow)
  modules : Option (List ModuleRow)
  chapitres : Option (List ChapitreRow)
  quizChapitres : Option (List QuizChapitreRow)
  quizModules : Option (List QuizModuleRow)
deriving DecidableEq, Repr

/-- Bulk load of `getAllCoursData` step 1 (lines 106-112). -/
def readAllData (sheets : CategorySheets) : AllData :=
  { cours := sheetToJSON sheets.cours
    modules := sheetToJSON sheets.modules
    chapitres := sheetToJSON sheets.chapitres
    quizChapitres := sheetToJSON sheets.quizChapitres
    quizModules := sheetToJSON sheets.quizModules }

/-- Embedding of `getAllCoursData` (part_000 lines 102-121): one fiche per
course row, with the `null` fiches dropped by `.filter(f => f !== null)`. -/
def getAllCoursData (sheets : CategorySheets) : List FicheCours :=
  let allData := readAllData sheets
  ((allData.cours.map (fun cours => generateFicheCours cours.ID_Cours allData)).filterMap id)

/-- Concrete module table for the witnesses: three rows of course `C-001`
with order values 2, 1, 1 (the last two tie) and one row of another
course. -/
def sampleModules : List ModuleRow :=
  [ { ID_Cours := "C-001", ID_Module := "M-001-1", Nom_Module := "Fondations", Ordre_Module := 2 }
  , { ID_Cours := "C-001", ID_Module := "M-001-2", Nom_Module := "Communication", Ordre_Module := 1 }
  , { ID_Cours := "C-001", ID_Module := "M-001-3", Nom_Module := "Resilience", Ordre_Module := 1 }
  , { ID_Cours := "C-002", ID_Module := "M-002-1", Nom_Module := "Autre", Ordre_Module := 1 } ]

/-- The second and third rows of `sampleModules` (equal `Ordre_Module`). -/
def sampleModuleB : ModuleRow :=
  { ID_Cours := "C-001", ID_Module := "M-001-2", Nom_Module := "Communication", Ordre_Module := 1 }

/-- See `sampleModuleB`. -/
def sampleModuleC : ModuleRow :=
  { ID_Cours := "C-001", ID_Module := "M-001-3", Nom_Module := "Resilience", Ordre_Module := 1 }

/-- Concrete chapter table for the witnesses: two rows of module `M-001-1`
with equal order values. -/
def sampleChapitres : List ChapitreRow :=
  [ { ID_Module := "M-001-1", ID_Chapitre := "CH-1", Nom_Chapitre := "Intro"
      Duree := "20min", Ressource := "PDF", Ordre_Chapitre := 1 }
  , { ID_Module := "M-001-1", ID_Chapitre := "CH-2", Nom_Chapitre := "Piege"
      Duree := "45min", Ressource := "Code", Ordre_Chapitre := 1 } ]

/-- First row of `sampleChapitres`. -/
def sampleChapitreA : ChapitreRow :=
  { ID_Module := "M-001-1", ID_Chapitre := "CH-1", Nom_Chapitre := "Intro"
    Duree := "20min", Ressource := "PDF", Ordre_Chapitre := 1 }

/-- Second row of `sampleChapitres`. -/
def sampleChapitreB : ChapitreRow :=
  { ID_Module := "M-001-1", ID_Chapitre := "CH-2", Nom_Chapitre := "Piege"
    Duree := "45min", Ressource := "Code", Ordre_Chapitre := 1 }

/-- A concrete course row used by the witnesses. -/
def sampleCours : CoursRow :=
  { ID_Cours := "C-001", Nom_Cours := "Microservices", Resume := "r"
    Duree_Totale := "8h30", Niveau := "Expert", Prix := 75000
    URL_Video := "v", Image_Couverture := "i", Freemium_Start := "0"
    Freemium_End := "1200", Objectifs := "o", Prerequis := "p"
    Avantage_Senior := "a", Public_Cible := "dev", Formateur_Nom := "Jean"
    Formateur_Titre := "CTO", Formateur_Bio := "b", Note_Moyenne := "4.8"
    Avis := "125" }

/-- Concrete data set whose only course has no module rows. -/
def sampleDataNoModules : AllData :=
  { cours := [sampleCours], modules := [], chapitres := []
    quizChapitres := [], quizModules := [] }

end CategorySvc

namespace Learning

/-- Row of the `Cours_Achetés` sheet (headers at `Gestion Cours.js`
line 83): one purchase record. Cell values are kept as strings. -/
structure AchatRow where
  ID_Achat : String
  ID_Client : String
  ID_Cours : String
  Nom_Cours : String
  Prix_Achat : String
  Formateur_Nom : String
  Date_Achat : String
deriving DecidableEq, Repr

/-- Embedding of the JavaScript idiom `[...new Set(xs)]` (line 109):
deduplicate, keeping the first occurrence of each element in encounter
order. The `seen` accumulator is the set built so far. -/
def jsSetDedupAux {α : Type} [DecidableEq α] (seen : List α) : List α → List α
  | [] => []
  | a :: rest =>
      if a ∈ seen then jsSetDedupAux seen rest
      else a :: jsSetDedupAux (a :: seen) rest

/-- See `jsSetDedupAux`. -/
def jsSetDedup {α : Type} [DecidableEq α] (l : List α) : List α :=
  jsSetDedupAux [] l

/-- Response shape of `getCoursAchetes`: `{success, data?, error?}`. -/
structure GetCoursAchetesResult where
  success : Bool
  data : Option (List String)
  error : Option String
deriving DecidableEq, Repr

/-- Embedding of `getCoursAchetes` (`Gestion Cours.js` lines 97-110): guard
on a missing user id (`!userId`, i.e. the empty string for a string-typed
id), filter the purchase rows by `ID_Client`, project `ID_Cours`, and return
the unique course ids. -/
def getCoursAchetes (userId : String) (rows : List AchatRow) :
    GetCoursAchetesResult :=
  if userId == "" then
    { success := false, data := none, error := some "ID utilisateur manquant." }
  else
    let coursIds :=
      (rows.filter (fun row => row.ID_Client == userId)).map (fun row => row.ID_Cours)
    { success := true, data := some (jsSetDedup coursIds), error := none }

/-- Concrete purchase table for the witness: user `CLT-1` bought course
`C-001` twice and course `C-002` once; another user's row is present. -/
def sampleAchats : List AchatRow :=
  [ { ID_Achat := "ACH-1", ID_Client := "CLT-1", ID_Cours := "C-001"
      Nom_Cours := "Micro", Prix_Achat := "75000", Formateur_Nom := "Jean"
      Date_Achat := "d1" }
  , { ID_Achat := "ACH-2", ID_Client := "CLT-1", ID_Cours := "C-002"
      Nom_Cours := "Cloud", Prix_Achat := "60000", Formateur_Nom := "Awa"
      Date_Achat := "d2" }
  , { ID_Achat := "ACH-3", ID_Client := "CLT-1", ID_Cours := "C-001"
      Nom_Cours := "Micro", Prix_Achat := "75000", Formateur_Nom := "Jean"
      Date_Achat := "d3" }
  , { ID_Achat := "ACH-4", ID_Client := "CLT-2", ID_Cours := "C-003"
      Nom_Cours := "Data", Prix_Achat := "50000", Formateur_Nom := "Awa"
      Date_Achat := "d4" } ]

end Learning

namespace Accounts

/-- Row of the `Utilisateurs` sheet, in the column order appended by
`creerCompteClient` (part_001 lines 164-167). -/
structure UserRow where
  IDClient : String
  Nom : String
  Email : String
  PasswordHash : String
  Salt : String
  Telephone : String
  Adresse : String
  DateInscription : String
  Statut : String
  Role : String
  ImageURL : String
deriving DecidableEq, Repr

/-- Registration payload of `creerCompteClient` (part_001 line 147):
`{nom, email, motDePasse, role = 'Client'}` with optional `telephone` and
`adresse` defaulting to the empty string (`data.telephone || ''`). -/
structure RegistrationData where
  nom : String
  email : String
  motDePasse : String
  role : String := "Client"
  telephone : String := ""
  adresse : String := ""
deriving DecidableEq, Repr

/-- Response shape of `creerCompteClient`. -/
structure RegResult where
  success : Bool
  id : Option String
  error : Option String
deriving DecidableEq, Repr

/-- Embedding of `creerCompteClient` (part_001 lines 146-176). The users
sheet is the list of existing rows. `emailColumnValues` mirrors the range
read `getRange(2, emailIndex + 1, sheet.getLastRow())`, which covers every
data row plus one blank cell just past the end of the sheet, hence the
appended `""`. The password digest is an external primitive
(`Utilities.computeDigest`), passed in as `hashPassword`
(password ↦ (hash, salt)); `now` is the clock reading used for the generated
client id and the inscription date. Returns the response together with the
updated users table. -/
def creerCompteClient (hashPassword : String → String × String) (now : Nat)
    (data : RegistrationData) (table : List UserRow) :
    RegResult × List UserRow :=
  let emailColumnValues := table.map (fun row => row.Email) ++ [""]
  let emailExists := emailColumnValues.any
    (fun existingEmail =>
      JsString.toLowerCase existingEmail == JsString.toLowerCase data.email)
  if emailExists then
    ({ success := false, id := none
       error := some "Un compte avec cet email existe déjà." }, table)
  else
    let idClient := "CLT-" ++ toString now
    let hashed := hashPassword data.motDePasse
    ({ success := true, id := some idClient, error := none },
      table ++
        [{ IDClient := idClient, Nom := data.nom, Email := data.email
           PasswordHash := hashed.1, Salt := hashed.2
           Telephone := data.telephone, Adresse := data.adresse
           DateInscription := toString now, Statut := "Actif"
           Role := data.role, ImageURL := "" }])

/-- Trivial stand-in for the opaque digest primitive, used by the witness. -/
def sampleHash (password : String) : String × String := (password, "salt")

/-- Concrete users table for the witness: one account whose email differs
from the incoming registration only by letter case. -/
def sampleUsers : List UserRow :=
  [ { IDClient := "CLT-1", Nom := "Bob", Email := "Bob@Example.com"
      PasswordHash := "h", Salt := "s", Telephone := "", Adresse := ""
      DateInscription := "0", Statut := "Actif", Role := "Client"
      ImageURL := "" } ]

/-- Concrete registration clashing with `sampleUsers` case-insensitively. -/
def sampleRegistration : RegistrationData :=
  { nom := "Bobby", email := "bob@example.COM", motDePasse := "pw" }

end Accounts

namespace ClientSide

/-- The `data` object of the aggregator's catalog payload as seen by the
browser. The client treats categories and products opaquely, so their types
are parameters. -/
structure CatalogData (κ π : Type) where
  categories : List κ
  products : List π
deriving DecidableEq, Repr

/-- Parsed JSON body of a catalog response, and also the shape the client
caches and returns: `{success, data, cacheVersion?, error?}`. -/
structure CatalogResult (κ π : Type) where
  success : Bool
  data : CatalogData κ π
  cacheVersion : Option String
  error : Option String
deriving DecidableEq, Repr

/-- One resolved `fetch`: `response.ok`, `response.statusText`, and the
parsed JSON body. A rejected `fetch` (network error) is modeled by passing
`none` where an `Option NetworkResponse` is expected. -/
structure NetworkResponse (κ π : Type) where
  ok : Bool
  statusText : String
  body : CatalogResult κ π
deriving DecidableEq, Repr

/-- The three session-storage slots used by the client cache:
`abmcyFullCatalog` (the stringified snapshot), `abmcyCacheVersion`, and
`abmcyCacheTimestamp`; `none` models an absent key. -/
structure SessionCache (κ π : Type) where
  cachedData : Option (CatalogResult κ π)
  cacheVersion : Option String
  cacheTimestamp : Option Nat
deriving DecidableEq, Repr

/-- Constant `CACHE_LIFETIME` (main.js line 1414): five minutes in milliseconds. -/
def CACHE_LIFETIME : Nat := 5 * 60 * 1000

/-- The explicit empty/error catalog shape returned by `getFullCatalog` on
any failure (main.js line 1374). -/
def errorCatalog {κ π : Type} (msg : String) : CatalogResult κ π :=
  { success := false
    data := { categories := [], products := [] }
    cacheVersion := none
    error := some msg }

/-- Embedding of `getFullCatalog` (main.js lines 1351-1376): one blocking
fetch. On a rejected fetch, a non-ok status, or an unsuccessful body, the
`catch` turns the thrown error into the explicit error shape and the
session storage is untouched. On success the snapshot and the version token
are stored — the source never writes `abmcyCacheTimestamp` here — and the
parsed result is returned. -/
def getFullCatalog {κ π : Type} (net : Option (NetworkResponse κ π))
    (st : SessionCache κ π) : CatalogResult κ π × SessionCache κ π :=
  match net with
  | none => (errorCatalog "Échec du chargement du catalogue complet", st)
  | some response =>
      if !response.ok then
        (errorCatalog ("Erreur réseau: " ++ response.statusText), st)
      else if !response.body.success then
        (errorCatalog ((response.body.error).getD "L'API a retourné une erreur."), st)
      else
        (response.body,
          { st with
              cachedData := some response.body
              cacheVersion := response.body.cacheVersion })

/-- Embedding of the inner `fetchAndUpdateCache` closure (main.js
lines 1420-1435): a background fetch that fails silently; on a successful
body it overwrites all three storage slots, with `tDone` the `Date.now()`
reading at completion. -/
def fetchAndUpdateCache {κ π : Type} (tDone : Nat)
    (net : Option (NetworkResponse κ π)) (st : SessionCache κ π) :
    SessionCache κ π :=
  match net with
  | none => st
  | some response =>
      if !response.ok then st
      else if response.body.success then
        { cachedData := some response.body
          cacheVersion := response.body.cacheVersion
          cacheTimestamp := some tDone }
      else st

/-- Embedding of `getCatalogAndRefreshInBackground` (main.js
lines 1410-1451). `now` is the `Date.now()` reading of the staleness check
and `tDone` the one at background-fetch completion. The returned `Nat`
counts the network fetches the call performs (the background one included),
so the claims about "zero network calls" and "exactly one background
re-fetch" are statable. -/
def getCatalogAndRefreshInBackground {κ π : Type} (now tDone : Nat)
    (net : Option (NetworkResponse κ π)) (st : SessionCache κ π) :
    CatalogResult κ π × SessionCache κ π × Nat :=
  match st.cachedData with
  | some cached =>
      let isCacheStale :=
        match st.cacheTimestamp with
        | none => true
        | some ts => decide (now - ts > CACHE_LIFETIME)
      if isCacheStale then (cached, fetchAndUpdateCache tDone net st, 1)
      else (cached, st, 0)
  | none =>
      let loaded := getFullCatalog net st
      (loaded.1, loaded.2, 1)

/-- A concrete cached snapshot for the witnesses. -/
def sampleSnapshot : CatalogResult Nat Nat :=
  { success := true
    data := { categories := [1], products := [10, 11] }
    cacheVersion := some "100"
    error := none }

/-- Session cache holding `sampleSnapshot`, fetched at time 0. -/
def sampleSession : SessionCache Nat Nat :=
  { cachedData := some sampleSnapshot
    cacheVersion := some "100"
    cacheTimestamp := some 0 }

/-- Session cache with all three slots absent. -/
def emptySession : SessionCache Nat Nat :=
  { cachedData := none, cacheVersion := none, cacheTimestamp := none }

/-- A successful network response carrying a fresh snapshot. -/
def goodResponse : NetworkResponse Nat Nat :=
  { ok := true
    statusText := "OK"
    body :=
      { success := true
        data := { categories := [1, 2], products := [20] }
        cacheVersion := some "200"
        error := none } }

end ClientSide

/-! Theorems. Helper lemmas come first, then one theorem per claim (with its
witness or counterexample where applicable). -/

/-- Bridge between the source's boolean active-row filter (JS string
truthiness and `startsWith`) and the claims' wording of the same
condition. -/
theorem isActiveRow_eq_decide_claimActive (c : Aggregator.Category) :
    Aggregator.isActiveRow c = decide (Aggregator.claimActive c) := by
  by_cases h1 : c.ScriptURL = "" <;>
    by_cases h2 : JsString.jsStartsWith c.ScriptURL "REMPLIR_" = true <;>
      simp [Aggregator.isActiveRow, Aggregator.claimActive, h1, h2]

/-- The merged product list of `getPublicCatalog` is the merge loop applied
to the active rows, in both branches of the empty-active-set test. -/
theorem getPublicCatalog_products_eq {α : Type} (cats : List Aggregator.Category)
    (resp : Aggregator.Category → Aggregator.FetchResponse α) :
    (Aggregator.getPublicCatalog cats resp).products
      = Aggregator.collectCourses resp (cats.filter Aggregator.isActiveRow) := by
  by_cases h : (cats.filter Aggregator.isActiveRow).isEmpty = true
  · simp [Aggregator.getPublicCatalog, h, List.isEmpty_iff.mp h,
      Aggregator.collectCourses]
  · simp [Aggregator.getPublicCatalog, h]

/-- The merge loop under a single failing category: the failing row
contributes nothing, every other row contributes its tagged items. -/
theorem collectCourses_single_failure {α : Type}
    (resp : Aggregator.Category → Aggregator.FetchResponse α)
    (cf : Aggregator.Category) (hfail : Aggregator.fetchOk (resp cf) = false)
    (l : List Aggregator.Category)
    (hok : ∀ c ∈ l, c ≠ cf → Aggregator.fetchOk (resp c) = true) :
    Aggregator.collectCourses resp l
      = (l.filter (fun c => decide (c ≠ cf))).flatMap
          (fun c => ((resp c).data.getD []).map
            (fun course => (course, c.NomCategorie))) := by
  induction l with
  | nil => rfl
  | cons c rest ih =>
      have hrest : ∀ c' ∈ rest, c' ≠ cf → Aggregator.fetchOk (resp c') = true :=
        fun c' hm => hok c' (List.mem_cons_of_mem _ hm)
      by_cases hc : c = cf
      · subst hc
        simp [Aggregator.collectCourses, hfail, ih hrest]
      · have hco : Aggregator.fetchOk (resp c) = true :=
          hok c (List.mem_cons_self _ _) hc
        simp [Aggregator.collectCourses, hco, hc, ih hrest]

/-- C1: if one active category's endpoint fetch fails (non-200 status,
missing success flag, or non-array payload) and every other active
category's fetch is accepted, `getPublicCatalog` still returns a success
result whose merged product list is exactly the tagged products of the
other active categories, with nothing from the failing one; the failure is
not propagated. -/
theorem aggregator_partial_failure {α : Type}
    (cats : List Aggregator.Category)
    (resp : Aggregator.Category → Aggregator.FetchResponse α)
    (cf : Aggregator.Category) (storedVersion : Option String)
    (hfail : Aggregator.fetchOk (resp cf) = false)
    (hok : ∀ c ∈ cats.filter Aggregator.isActiveRow, c ≠ cf →
      Aggregator.fetchOk (resp c) = true) :
    (Aggregator.doGetPublicCatalog cats resp storedVersion).success = true
    ∧ (Aggregator.getPublicCatalog cats resp).products
        = ((cats.filter Aggregator.isActiveRow).filter (fun c => decide (c ≠ cf))).flatMap
            (fun c => ((resp c).data.getD []).map
              (fun course => (course, c.NomCategorie))) := by
  refine ⟨rfl, ?_⟩
  rw [getPublicCatalog_products_eq]
  exact collectCourses_single_failure resp cf hfail _ hok

/-- Witness for C1: in the sample registry (two active categories, one
placeholder), the DevOps endpoint fails with a 500 while the Backend
endpoint answers two products; the catalog is still a success and carries
exactly the Backend products tagged with the Backend display name. -/
theorem aggregator_partial_failure_witness :
    Aggregator.fetchOk (Aggregator.sampleResp Aggregator.rowDevOps) = false
    ∧ (∀ c ∈ Aggregator.sampleRegistry.filter Aggregator.isActiveRow,
        c ≠ Aggregator.rowDevOps → Aggregator.fetchOk (Aggregator.sampleResp c) = true)
    ∧ ((Aggregator.doGetPublicCatalog Aggregator.sampleRegistry Aggregator.sampleResp
          (some "1")).success = true
       ∧ (Aggregator.getPublicCatalog Aggregator.sampleRegistry Aggregator.sampleResp).products
           = ((Aggregator.sampleRegistry.filter Aggregator.isActiveRow).filter
                (fun c => decide (c ≠ Aggregator.rowDevOps))).flatMap
               (fun c => ((Aggregator.sampleResp c).data.getD []).map
                 (fun course => (course, c.NomCategorie)))) :=
  ⟨by decide, by decide,
    aggregator_partial_failure Aggregator.sampleRegistry Aggregator.sampleResp
      Aggregator.rowDevOps (some "1") (by decide) (by decide)⟩

/-- C2: `getPublicCatalog` issues exactly one outbound `getProducts`
request per registry row whose endpoint URL is non-empty and does not start
with the `REMPLIR_` sentinel, and none for any other row; in particular the
sample registry of 3 categories with 1 sentinel row yields exactly 2
requests. -/
theorem aggregator_requests_exactly_active :
    (∀ cats : List Aggregator.Category,
      Aggregator.catalogRequests cats
        = (cats.filter (fun c => decide (Aggregator.claimActive c))).map
            (fun c =>
              { url := c.ScriptURL ++ "?action=getProducts"
                method := "get"
                muteHttpExceptions := true }))
    ∧ (Aggregator.catalogRequests Aggregator.sampleRegistry).length = 2 := by
  constructor
  · intro cats
    unfold Aggregator.catalogRequests
    rw [List.filter_congr (fun x _ => isActiveRow_eq_decide_claimActive x)]
  · decide

/-- C3: when no registry row has a configured (non-sentinel) endpoint URL,
the `getPublicCatalog` response is a success whose `categories` field holds
all registry rows and whose `products` field is empty. -/
theorem aggregator_empty_active {α : Type} (cats : List Aggregator.Category)
    (resp : Aggregator.Category → Aggregator.FetchResponse α)
    (storedVersion : Option String)
    (h : ∀ c ∈ cats, ¬ Aggregator.claimActive c) :
    (Aggregator.doGetPublicCatalog cats resp storedVersion).success = true
    ∧ (Aggregator.doGetPublicCatalog cats resp storedVersion).data.categories = cats
    ∧ (Aggregator.doGetPublicCatalog cats resp storedVersion).data.products = [] := by
  have hfil : cats.filter Aggregator.isActiveRow = [] := by
    apply List.filter_eq_nil_iff.mpr
    intro a ha
    rw [isActiveRow_eq_decide_claimActive]
    simpa using h a ha
  refine ⟨rfl, ?_, ?_⟩ <;>
    simp [Aggregator.doGetPublicCatalog, Aggregator.getPublicCatalog, hfil]

/-- Witness for C3: the registry seeded by `setupCentralSheet` (all three
rows still carry the sentinel) produces a success with all rows and no
products. -/
theorem aggregator_empty_active_witness :
    (∀ c ∈ Aggregator.placeholderRegistry, ¬ Aggregator.claimActive c)
    ∧ ((Aggregator.doGetPublicCatalog Aggregator.placeholderRegistry
          Aggregator.sampleResp (some "0")).success = true
       ∧ (Aggregator.doGetPublicCatalog Aggregator.placeholderRegistry
            Aggregator.sampleResp (some "0")).data.categories
           = Aggregator.placeholderRegistry
       ∧ (Aggregator.doGetPublicCatalog Aggregator.placeholderRegistry
            Aggregator.sampleResp (some "0")).data.products = []) :=
  ⟨by decide,
    aggregator_empty_active Aggregator.placeholderRegistry Aggregator.sampleResp
      (some "0") (by decide)⟩

/-- Counterexample to C5 as stated: when `invalidateCache` runs in the same
millisecond that produced the stored token (stored value 5, clock reading
5), the new token equals the old one — it is not strictly greater. -/
theorem invalidateCache_equal_clock_counterexample :
    (Aggregator.invalidateCache 5 (some 5)).2 = some 5
    ∧ ¬ (5 < (Aggregator.invalidateCache 5 (some 5)).1) := by
  decide

/-- C5 (amended): every call to `invalidateCache` stores and returns the
current-time-derived value; across two successive invalidations whose clock
readings do not decrease, the token never moves backward, and it moves
strictly forward whenever the clock strictly advanced. -/
theorem invalidateCache_clock_monotone (now now' : Nat) (stored : Option Nat)
    (h : now ≤ now') :
    (Aggregator.invalidateCache now stored).2
        = some (Aggregator.invalidateCache now stored).1
    ∧ (Aggregator.invalidateCache now stored).1 = now
    ∧ (Aggregator.invalidateCache now stored).1
        ≤ (Aggregator.invalidateCache now' (Aggregator.invalidateCache now stored).2).1
    ∧ (now < now' →
        (Aggregator.invalidateCache now stored).1
          < (Aggregator.invalidateCache now' (Aggregator.invalidateCache now stored).2).1) := by
  simp [Aggregator.invalidateCache]
  omega

/-- Witness for C5's amended statement at clock readings 3 then 7. -/
theorem invalidateCache_clock_monotone_witness :
    (3 : Nat) ≤ 7
    ∧ ((Aggregator.invalidateCache 3 (some 0)).2
          = some (Aggregator.invalidateCache 3 (some 0)).1
       ∧ (Aggregator.invalidateCache 3 (some 0)).1 = 3
       ∧ (Aggregator.invalidateCache 3 (some 0)).1
           ≤ (Aggregator.invalidateCache 7 (Aggregator.invalidateCache 3 (some 0)).2).1
       ∧ ((3 : Nat) < 7 →
           (Aggregator.invalidateCache 3 (some 0)).1
             < (Aggregator.invalidateCache 7 (Aggregator.invalidateCache 3 (some 0)).2).1)) :=
  ⟨by decide, invalidateCache_clock_monotone 3 7 (some 0) (by decide)⟩

/-- An `insertionSort` by an integer key is sorted by that key. -/
theorem insertionSort_key_pairwise {α : Type} (key : α → Int) (l : List α) :
    (l.insertionSort (fun a b => key a ≤ key b)).Pairwise
      (fun a b => key a ≤ key b) := by
  haveI : IsTotal α (fun a b => key a ≤ key b) :=
    ⟨fun a b => le_total (key a) (key b)⟩
  haveI : IsTrans α (fun a b => key a ≤ key b) :=
    ⟨fun _ _ _ hab hbc => le_trans hab hbc⟩
  exact List.sorted_insertionSort _ l

/-- In an `insertionSort` by an integer key, an element with a strictly
smaller key sits at a strictly smaller position. -/
theorem insertionSort_key_position {α : Type} (key : α → Int) (l : List α)
    (i j : Nat)
    (hi : i < (l.insertionSort (fun a b => key a ≤ key b)).length)
    (hj : j < (l.insertionSort (fun a b => key a ≤ key b)).length)
    (hlt : key ((l.insertionSort (fun a b => key a ≤ key b)).get ⟨i, hi⟩)
      < key ((l.insertionSort (fun a b => key a ≤ key b)).get ⟨j, hj⟩)) :
    i < j := by
  by_contra hij
  rcases Nat.lt_or_ge j i with hji | hle
  · have := (List.pairwise_iff_getElem.mp
      (insertionSort_key_pairwise key l)) j i hj hi hji
    simp only [List.get_eq_getElem] at hlt
    omega
  · have : i = j := by omega
    subst this
    exact lt_irrefl _ hlt

/-- C4: in every assembled course sheet, modules of one course are listed by
ascending numeric `Ordre_Module` (a module with a strictly smaller order
value precedes one with a larger value), and two modules with equal order
values keep the relative order of their rows in the source table; chapters
of one module behave the same way with respect to `Ordre_Chapitre`. -/
theorem category_module_chapter_ordering (idCours idModule : String)
    (allModules : List CategorySvc.ModuleRow)
    (allChapitres : List CategorySvc.ChapitreRow) :
    (∀ (i j : Nat)
      (hi : i < (CategorySvc.getModulesByCours idCours allModules).length)
      (hj : j < (CategorySvc.getModulesByCours idCours allModules).length),
      ((CategorySvc.getModulesByCours idCours allModules).get ⟨i, hi⟩).Ordre_Module
          < ((CategorySvc.getModulesByCours idCours allModules).get ⟨j, hj⟩).Ordre_Module
        → i < j)
    ∧ (∀ m₁ m₂ : CategorySvc.ModuleRow,
        m₁.Ordre_Module = m₂.Ordre_Module →
        m₁.ID_Cours = idCours → m₂.ID_Cours = idCours →
        [m₁, m₂].Sublist allModules →
        [m₁, m₂].Sublist (CategorySvc.getModulesByCours idCours allModules))
    ∧ (∀ (i j : Nat)
      (hi : i < (CategorySvc.getChapitresByModule idModule allChapitres).length)
      (hj : j < (CategorySvc.getChapitresByModule idModule allChapitres).length),
      ((CategorySvc.getChapitresByModule idModule allChapitres).get ⟨i, hi⟩).Ordre_Chapitre
          < ((CategorySvc.getChapitresByModule idModule allChapitres).get ⟨j, hj⟩).Ordre_Chapitre
        → i < j)
    ∧ (∀ c₁ c₂ : CategorySvc.ChapitreRow,
        c₁.Ordre_Chapitre = c₂.Ordre_Chapitre →
        c₁.ID_Module = idModule → c₂.ID_Module = idModule →
        [c₁, c₂].Sublist allChapitres →
        [c₁, c₂].Sublist (CategorySvc.getChapitresByModule idModule allChapitres)) := by
  refine ⟨?_, ?_, ?_, ?_⟩
  · intro i j hi hj hlt
    exact insertionSort_key_position CategorySvc.ModuleRow.Ordre_Module
      (allModules.filter (fun m => m.ID_Cours == idCours)) i j hi hj hlt
  · intro m₁ m₂ hkey h₁ h₂ hsub
    have hfil : [m₁, m₂].Sublist
        (allModules.filter (fun m => m.ID_Cours == idCours)) := by
      have := hsub.filter (fun m => m.ID_Cours == idCours)
      simpa [List.filter, h₁, h₂] using this
    exact List.pair_sublist_insertionSort (le_of_eq hkey) hfil
  · intro i j hi hj hlt
    exact insertionSort_key_position CategorySvc.ChapitreRow.Ordre_Chapitre
      (allChapitres.filter (fun c => c.ID_Module == idModule)) i j hi hj hlt
  · intro c₁ c₂ hkey h₁ h₂ hsub
    have hfil : [c₁, c₂].Sublist
        (allChapitres.filter (fun c => c.ID_Module == idModule)) := by
      have := hsub.filter (fun c => c.ID_Module == idModule)
      simpa [List.filter, h₁, h₂] using this
    exact List.pair_sublist_insertionSort (le_of_eq hkey) hfil

/-- Witness for C4 on the sample tables: the module with order 1 at
position 0 precedes the one with order 2 (position 2), the two modules that
tie on order 1 keep their row order, and so do the two chapters that tie on
order 1. -/
theorem category_module_chapter_ordering_witness :
    ((0 : Nat) < 2)
    ∧ [CategorySvc.sampleModuleB, CategorySvc.sampleModuleC].Sublist
        (CategorySvc.getModulesByCours "C-001" CategorySvc.sampleModules)
    ∧ [CategorySvc.sampleChapitreA, CategorySvc.sampleChapitreB].Sublist
        (CategorySvc.getChapitresByModule "M-001-1" CategorySvc.sampleChapitres) := by
  refine ⟨?_, ?_, ?_⟩
  · exact (category_module_chapter_ordering "C-001" "M-001-1"
      CategorySvc.sampleModules CategorySvc.sampleChapitres).1
      0 2 (by decide) (by decide) (by decide)
  · exact (category_module_chapter_ordering "C-001" "M-001-1"
      CategorySvc.sampleModules CategorySvc.sampleChapitres).2.1
      CategorySvc.sampleModuleB CategorySvc.sampleModuleC
      (by decide) (by decide) (by decide) (by decide)
  · exact (category_module_chapter_ordering "C-001" "M-001-1"
      CategorySvc.sampleModules CategorySvc.sampleChapitres).2.2.2
      CategorySvc.sampleChapitreA CategorySvc.sampleChapitreB
      (by decide) (by decide) (by decide) (by decide)

/-- Counterexample to C6 as stated: at an age of exactly the 5-minute
lifetime (entry fetched at time 0, read at time 300000), the claim demands
exactly one background re-fetch, but the code's strict `>` comparison keeps
the entry fresh and performs zero network calls. -/
theorem clientCache_exact_lifetime_counterexample :
    (ClientSide.getCatalogAndRefreshInBackground 300000 300001
        (some ClientSide.goodResponse) ClientSide.sampleSession).2.2 = 0
    ∧ ¬ ((ClientSide.getCatalogAndRefreshInBackground 300000 300001
        (some ClientSide.goodResponse) ClientSide.sampleSession).2.2 = 1) := by
  decide

/-- C6 (amended): a read while the entry is present and aged at most the
5-minute lifetime returns the cached snapshot synchronously with zero
network calls; a read while the entry is present and aged strictly beyond
the lifetime still returns the previous snapshot synchronously and triggers
exactly one background re-fetch, which on a successful response overwrites
the cached snapshot, version, and timestamp. -/
theorem clientCache_swr {κ π : Type} (now tDone : Nat)
    (net : Option (ClientSide.NetworkResponse κ π))
    (st : ClientSide.SessionCache κ π) (snap : ClientSide.CatalogResult κ π)
    (ts : Nat) (hc : st.cachedData = some snap)
    (ht : st.cacheTimestamp = some ts) :
    (now - ts ≤ ClientSide.CACHE_LIFETIME →
      ClientSide.getCatalogAndRefreshInBackground now tDone net st = (snap, st, 0))
    ∧ (now - ts > ClientSide.CACHE_LIFETIME →
      ((ClientSide.getCatalogAndRefreshInBackground now tDone net st).1 = snap
       ∧ (ClientSide.getCatalogAndRefreshInBackground now tDone net st).2.2 = 1
       ∧ ∀ r : ClientSide.NetworkResponse κ π, net = some r → r.ok = true →
           r.body.success = true →
           (ClientSide.getCatalogAndRefreshInBackground now tDone net st).2.1
             = { cachedData := some r.body
                 cacheVersion := r.body.cacheVersion
                 cacheTimestamp := some tDone })) := by
  constructor
  · intro hfresh
    have hdec : decide (now - ts > ClientSide.CACHE_LIFETIME) = false := by
      simp only [decide_eq_false_iff_not]
      omega
    simp [ClientSide.getCatalogAndRefreshInBackground, hc, ht, hdec]
  · intro hstale
    have hdec : decide (now - ts > ClientSide.CACHE_LIFETIME) = true := by
      simpa using hstale
    refine ⟨?_, ?_, ?_⟩
    · simp [ClientSide.getCatalogAndRefreshInBackground, hc, ht, hdec]
    · simp [ClientSide.getCatalogAndRefreshInBackground, hc, ht, hdec]
    · intro r hr hok hsucc
      subst hr
      simp [ClientSide.getCatalogAndRefreshInBackground, hc, ht, hdec,
        ClientSide.fetchAndUpdateCache, hok, hsucc]

/-- Witness for C6's amended statement: a read at age 1000 ms serves the
cached snapshot with zero fetches; a read at age 301000 ms serves the same
snapshot and performs exactly one background fetch. -/
theorem clientCache_swr_witness :
    ((1000 : Nat) - 0 ≤ ClientSide.CACHE_LIFETIME)
    ∧ ClientSide.getCatalogAndRefreshInBackground 1000 1500
        (some ClientSide.goodResponse) ClientSide.sampleSession
        = (ClientSide.sampleSnapshot, ClientSide.sampleSession, 0)
    ∧ ((301000 : Nat) - 0 > ClientSide.CACHE_LIFETIME)
    ∧ (ClientSide.getCatalogAndRefreshInBackground 301000 301500
        (some ClientSide.goodResponse) ClientSide.sampleSession).2.2 = 1 :=
  ⟨by decide,
    (clientCache_swr 1000 1500 (some ClientSide.goodResponse)
      ClientSide.sampleSession ClientSide.sampleSnapshot 0 rfl rfl).1 (by decide),
    by decide,
    ((clientCache_swr 301000 301500 (some ClientSide.goodResponse)
      ClientSide.sampleSession ClientSide.sampleSnapshot 0 rfl rfl).2 (by decide)).2.1⟩

/-- C7 (evaluation at the failing input): a read with no cached entry
performs exactly one blocking fetch; on success it stores the snapshot and
the version token but leaves `abmcyCacheTimestamp` unset (`none`), contrary
to the claim and to the stale-while-revalidate design, whose `FRESH` state
needs the fetch timestamp; on failure it returns the explicit error shape
(success false, empty category and product lists) and stores nothing. -/
theorem clientCache_initial_load_shape :
    (ClientSide.getCatalogAndRefreshInBackground 0 0
        (some ClientSide.goodResponse) ClientSide.emptySession).2.2 = 1
    ∧ (ClientSide.getCatalogAndRefreshInBackground 0 0
        (some ClientSide.goodResponse) ClientSide.emptySession).1
        = ClientSide.goodResponse.body
    ∧ (ClientSide.getCatalogAndRefreshInBackground 0 0
        (some ClientSide.goodResponse) ClientSide.emptySession).2.1.cachedData
        = some ClientSide.goodResponse.body
    ∧ (ClientSide.getCatalogAndRefreshInBackground 0 0
        (some ClientSide.goodResponse) ClientSide.emptySession).2.1.cacheVersion
        = ClientSide.goodResponse.body.cacheVersion
    ∧ (ClientSide.getCatalogAndRefreshInBackground 0 0
        (some ClientSide.goodResponse) ClientSide.emptySession).2.1.cacheTimestamp
        = none
    ∧ (ClientSide.getCatalogAndRefreshInBackground 0 0 none
        ClientSide.emptySession).1.success = false
    ∧ (ClientSide.getCatalogAndRefreshInBackground 0 0 none
        ClientSide.emptySession).1.data.categories = []
    ∧ (ClientSide.getCatalogAndRefreshInBackground 0 0 none
        ClientSide.emptySession).1.data.products = []
    ∧ (ClientSide.getCatalogAndRefreshInBackground 0 0 none
        ClientSide.emptySession).2.1 = ClientSide.emptySession := by
  decide

/-- C8: assembly is total on missing data — a found course with no matching
module rows assembles to an empty module list; assembly over five missing
sheets yields the empty output rather than an error; an id whose base row
is absent yields `none`; and the final output only ever contains
successfully assembled sheets (the `none` entries are silently dropped). -/
theorem category_assembly_total (idCours : String)
    (allData : CategorySvc.AllData) (sheets : CategorySvc.CategorySheets) :
    (∀ coursBase : CategorySvc.CoursRow,
      allData.cours.find? (fun c => c.ID_Cours == idCours) = some coursBase →
      (∀ m ∈ allData.modules, ¬ m.ID_Cours = idCours) →
      CategorySvc.generateFicheCours idCours allData
        = some { cours := coursBase, modules := [] })
    ∧ CategorySvc.getAllCoursData
        { cours := none, modules := none, chapitres := none
          quizChapitres := none, quizModules := none } = []
    ∧ (allData.cours.find? (fun c => c.ID_Cours == idCours) = none →
        CategorySvc.generateFicheCours idCours allData = none)
    ∧ (∀ fiche ∈ CategorySvc.getAllCoursData sheets,
        ∃ c ∈ CategorySvc.sheetToJSON sheets.cours,
          CategorySvc.generateFicheCours c.ID_Cours (CategorySvc.readAllData sheets)
            = some fiche) := by
  refine ⟨?_, rfl, ?_, ?_⟩
  · intro coursBase hfind hnomod
    have hfil : allData.modules.filter (fun m => m.ID_Cours == idCours) = [] := by
      apply List.filter_eq_nil_iff.mpr
      intro m hm
      simpa using hnomod m hm
    simp [CategorySvc.generateFicheCours, hfind, CategorySvc.getModulesByCours, hfil]
  · intro hnone
    simp [CategorySvc.generateFicheCours, hnone]
  · intro fiche hf
    simp only [CategorySvc.getAllCoursData, List.filterMap_map, List.mem_filterMap,
      id_eq] at hf
    obtain ⟨c, hc, hgen⟩ := hf
    exact ⟨c, hc, hgen⟩

/-- Witness for C8 on concrete data: course `C-001` is found and has no
module rows, so it assembles with an empty module list; the unknown id
`C-404` has no base row and assembles to `none`. -/
theorem category_assembly_total_witness :
    (CategorySvc.sampleDataNoModules.cours.find?
        (fun c => c.ID_Cours == "C-001") = some CategorySvc.sampleCours)
    ∧ (∀ m ∈ CategorySvc.sampleDataNoModules.modules, ¬ m.ID_Cours = "C-001")
    ∧ CategorySvc.generateFicheCours "C-001" CategorySvc.sampleDataNoModules
        = some { cours := CategorySvc.sampleCours, modules := [] }
    ∧ (CategorySvc.sampleDataNoModules.cours.find?
        (fun c => c.ID_Cours == "C-404") = none)
    ∧ CategorySvc.generateFicheCours "C-404" CategorySvc.sampleDataNoModules
        = none :=
  ⟨by decide, by decide,
    (category_assembly_total "C-001" CategorySvc.sampleDataNoModules
      { cours := none, modules := none, chapitres := none
        quizChapitres := none, quizModules := none }).1
      CategorySvc.sampleCours (by decide) (by decide),
    by decide,
    (category_assembly_total "C-404" CategorySvc.sampleDataNoModules
      { cours := none, modules := none, chapitres := none
        quizChapitres := none, quizModules := none }).2.2.1 (by decide)⟩

/-- Membership in the `Set`-dedup run: an element appears in the output iff
it appears in the remaining input and was not already seen. -/
theorem jsSetDedupAux_mem {α : Type} [DecidableEq α] (seen l : List α) (x : α) :
    x ∈ Learning.jsSetDedupAux seen l ↔ x ∈ l ∧ x ∉ seen := by
  induction l generalizing seen with
  | nil => simp [Learning.jsSetDedupAux]
  | cons a rest ih =>
      by_cases ha : a ∈ seen
      · rw [show Learning.jsSetDedupAux seen (a :: rest)
            = Learning.jsSetDedupAux seen rest by
          simp [Learning.jsSetDedupAux, ha]]
        rw [ih seen]
        simp only [List.mem_cons]
        constructor
        · rintro ⟨hr, hs⟩
          exact ⟨Or.inr hr, hs⟩
        · rintro ⟨hax | hr, hs⟩
          · subst hax
            exact absurd ha hs
          · exact ⟨hr, hs⟩
      · rw [show Learning.jsSetDedupAux seen (a :: rest)
            = a :: Learning.jsSetDedupAux (a :: seen) rest by
          simp [Learning.jsSetDedupAux, ha]]
        simp only [List.mem_cons, ih (a :: seen)]
        constructor
        · rintro (hax | ⟨hr, hs⟩)
          · subst hax
            exact ⟨Or.inl rfl, ha⟩
          · exact ⟨Or.inr hr, fun hx => hs (Or.inr hx)⟩
        · rintro ⟨hax | hr, hs⟩
          · exact Or.inl hax
          · by_cases hxa : x = a
            · exact Or.inl hxa
            · exact Or.inr ⟨hr, by simp [List.mem_cons, hxa, hs]⟩

/-- The `Set`-dedup run never repeats an element. -/
theorem jsSetDedupAux_nodup {α : Type} [DecidableEq α] (seen l : List α) :
    (Learning.jsSetDedupAux seen l).Nodup := by
  induction l generalizing seen with
  | nil => simp [Learning.jsSetDedupAux]
  | cons a rest ih =>
      by_cases ha : a ∈ seen
      · simpa [Learning.jsSetDedupAux, ha] using ih seen
      · rw [show Learning.jsSetDedupAux seen (a :: rest)
            = a :: Learning.jsSetDedupAux (a :: seen) rest by
          simp [Learning.jsSetDedupAux, ha]]
        refine List.nodup_cons.mpr ⟨?_, ih (a :: seen)⟩
        intro hmem
        exact ((jsSetDedupAux_mem (a :: seen) rest a).mp hmem).2
          (List.mem_cons_self a seen)

/-- C9: for a user id present in the purchases table, `getCoursAchetes`
succeeds and its data lists the user's purchased course ids with duplicates
removed — each course id appears at most once, and a course id appears iff
the table holds a purchase row of that user for that course. -/
theorem getCoursAchetes_unique_ids (userId : String)
    (rows : List Learning.AchatRow) (hne : userId ≠ "")
    (_hpresent : userId ∈ rows.map (fun r => r.ID_Client)) :
    (Learning.getCoursAchetes userId rows).success = true
    ∧ ∃ l, (Learning.getCoursAchetes userId rows).data = some l
        ∧ l.Nodup
        ∧ (∀ c, c ∈ l ↔ ∃ r ∈ rows, r.ID_Client = userId ∧ r.ID_Cours = c) := by
  have hguard : (userId == "") = false := by
    simpa using hne
  refine ⟨by simp [Learning.getCoursAchetes, hguard], ?_⟩
  refine ⟨Learning.jsSetDedup
    ((rows.filter (fun row => row.ID_Client == userId)).map
      (fun row => row.ID_Cours)), ?_, ?_, ?_⟩
  · simp [Learning.getCoursAchetes, hguard]
  · exact jsSetDedupAux_nodup [] _
  · intro c
    rw [Learning.jsSetDedup, jsSetDedupAux_mem]
    simp only [List.mem_map, List.mem_filter, List.not_mem_nil, not_false_iff,
      and_true, beq_iff_eq]
    constructor
    · rintro ⟨a, ⟨hmem, hid⟩, hcrs⟩
      exact ⟨a, hmem, hid, hcrs⟩
    · rintro ⟨r, hmem, hid, hcrs⟩
      exact ⟨r, ⟨hmem, hid⟩, hcrs⟩

/-- Witness for C9: user `CLT-1` appears in the sample table with two
purchases of `C-001` and one of `C-002`; the returned data is duplicate
free and contains exactly those two course ids. -/
theorem getCoursAchetes_unique_ids_witness :
    ("CLT-1" : String) ≠ ""
    ∧ "CLT-1" ∈ Learning.sampleAchats.map (fun r => r.ID_Client)
    ∧ ((Learning.getCoursAchetes "CLT-1" Learning.sampleAchats).success = true
       ∧ ∃ l, (Learning.getCoursAchetes "CLT-1" Learning.sampleAchats).data = some l
           ∧ l.Nodup
           ∧ (∀ c, c ∈ l ↔ ∃ r ∈ Learning.sampleAchats,
               r.ID_Client = "CLT-1" ∧ r.ID_Cours = c)) :=
  ⟨by decide, by decide,
    getCoursAchetes_unique_ids "CLT-1" Learning.sampleAchats
      (by decide) (by decide)⟩

/-- C10: a registration whose email already exists in the users table up to
letter case is rejected — `success` is false with an error message — and
the users table is left unchanged. -/
theorem creerCompteClient_duplicate_email
    (hashPassword : String → String × String) (now : Nat)
    (data : Accounts.RegistrationData) (table : List Accounts.UserRow)
    (hdup : ∃ row ∈ table,
      JsString.toLowerCase row.Email = JsString.toLowerCase data.email) :
    (Accounts.creerCompteClient hashPassword now data table).1.success = false
    ∧ (Accounts.creerCompteClient hashPassword now data table).1.error
        = some "Un compte avec cet email existe déjà."
    ∧ (Accounts.creerCompteClient hashPassword now data table).2 = table := by
  obtain ⟨row, hmem, heq⟩ := hdup
  have hexists : ((table.map (fun r => r.Email)) ++ [""]).any
      (fun existingEmail =>
        JsString.toLowerCase existingEmail == JsString.toLowerCase data.email)
      = true := by
    rw [List.any_eq_true]
    exact ⟨row.Email,
      List.mem_append_left _ (List.mem_map_of_mem _ hmem), by simp [heq]⟩
  refine ⟨?_, ?_, ?_⟩ <;> simp [Accounts.creerCompteClient, hexists]

/-- Witness for C10: the sample table holds `Bob@Example.com`; registering
`bob@example.COM` is rejected and appends no row. -/
theorem creerCompteClient_duplicate_email_witness :
    (∃ row ∈ Accounts.sampleUsers,
      JsString.toLowerCase row.Email
        = JsString.toLowerCase Accounts.sampleRegistration.email)
    ∧ ((Accounts.creerCompteClient Accounts.sampleHash 42
          Accounts.sampleRegistration Accounts.sampleUsers).1.success = false
       ∧ (Accounts.creerCompteClient Accounts.sampleHash 42
            Accounts.sampleRegistration Accounts.sampleUsers).1.error
           = some "Un compte avec cet email existe déjà."
       ∧ (Accounts.creerCompteClient Accounts.sampleHash 42
            Accounts.sampleRegistration Accounts.sampleUsers).2
           = Accounts.sampleUsers) :=
  ⟨by decide,
    creerCompteClient_duplicate_email Accounts.sampleHash 42
      Accounts.sampleRegistration Accounts.sampleUsers (by decide)⟩
